import Mathlib

/-!
# Zombie-prevention demo and signal-handling demo

A shallow embedding of `Q9_zombie_process/zombie_prevention.c` and
`Q10_signal_handling/signal_handling.c`.

Each program is a function from an environment (the values the operating
system returns to the calls the program makes) to the sequence of observable
actions of one process and the way that process ends.  `fork()` returns in two
processes; an environment describes what ONE process sees, so the parent's run
is the run in which every `fork()` returns a non-zero value and the run of the
child made by the k-th call is the run in which that call returns `0`.
-/

/-! ## Wait-status macros of `<sys/wait.h>` -/

namespace WaitStatus

/-- Low seven bits of a wait status: `((status) & 0x7f)`. -/
def WTERMSIG (status : Int) : Int := status % 128

/-- Bits 8..15 of a wait status: `(((status) & 0xff00) >> 8)`. -/
def WEXITSTATUS (status : Int) : Int := (status / 256) % 256

/-- True when the child ended through exit: `(WTERMSIG(status) == 0)`. -/
def WIFEXITED (status : Int) : Bool := WTERMSIG status == 0

/-- Conversion of a value in `0 .. 255` to `signed char`. -/
def toSignedChar (x : Int) : Int := if x % 256 < 128 then x % 256 else x % 256 - 256

/-- True when the child was killed by a signal:
`(((signed char) (((status) & 0x7f) + 1) >> 1) > 0)`. -/
def WIFSIGNALED (status : Int) : Bool := decide (toSignedChar (status % 128 + 1) / 2 > 0)

/-- Status word built by the kernel: `((ret) << 8 | (sig))`, for
`0 ≤ ret ≤ 255` and `0 ≤ sig ≤ 255`. -/
def W_EXITCODE (ret sig : Int) : Int := ret * 256 + sig

/-- How a process that is reaped by a wait without `WUNTRACED` / `WCONTINUED`
has ended: by `exit(arg)` (or returning `arg` from `main`), or killed by signal
`sig`, with or without a core dump. -/
inductive Termination where
  | exited (arg : Int)
  | killed (sig : Nat) (core : Bool)
  deriving DecidableEq, Repr

/-- The status word a wait call stores for a terminated child. Only the low
eight bits of the argument of `exit` reach the parent; the core-dump flag is
bit `0x80`. -/
def statusOf : Termination → Int
  | .exited arg => W_EXITCODE (arg % 256) 0
  | .killed sig core => W_EXITCODE 0 ((sig : Int) + if core then 128 else 0)

/-- Signal numbers fit the seven-bit field below the stop marker `0x7f`:
`1 .. 126` (Linux has the signals `1 .. 64`). -/
def Termination.wellFormed : Termination → Prop
  | .exited _ => True
  | .killed sig _ => 1 ≤ sig ∧ sig ≤ 126

instance : (t : Termination) → Decidable t.wellFormed
  | .exited _ => inferInstanceAs (Decidable True)
  | .killed sig _ => inferInstanceAs (Decidable (1 ≤ sig ∧ sig ≤ 126))

end WaitStatus

/-! ## `zombie_prevention.c` -/

namespace Zombie

open WaitStatus

/-- Number of children: `#define NUM_CHILDREN 5`. -/
def NUM_CHILDREN : Nat := 5

/-- Values the operating system hands to one process running `main`. -/
structure Env where
  /-- Result of `getpid()` in the process that started `main`. -/
  getpid : Int
  /-- Result of `getpid()` after a `fork()` that returned `0`. -/
  child_getpid : Int
  /-- Result of `getppid()` after a `fork()` that returned `0`. -/
  child_getppid : Int
  /-- Value returned by the n-th call of `fork()` (counted from 0). -/
  fork : Nat → Int
  /-- For the n-th call of `waitpid(pid, &status, options)`: the value
  returned and the word stored in `status` when that value is positive. -/
  waitpid : Nat → Int → Int → Int × Int

/-- Observable actions of the process, one constructor per call site. -/
inductive Event where
  | printf_banner
  | printf_parent_pid (pid : Int)
  | printf_creating (n : Int)
  | fflush
  | fork (ret : Int)
  | perror_fork_failed
  | printf_child_hello (idx pid ppid : Int)
  | sleep (secs : Int)
  | printf_child_terminating (idx pid : Int)
  | printf_created (idx pid : Int)
  | printf_waiting_header
  | waitpid (pid options ret : Int)
  | printf_cleaned_up (pid : Int)
  | printf_exited_normally (code : Int)
  | printf_terminated_by_signal (sig : Int)
  | printf_newline
  | perror_waitpid_failed
  | printf_all_cleaned
  | printf_parent_exiting (pid : Int)
  deriving DecidableEq, Repr

/-- How the process ends: a call of `exit`, a `return` from `main`, or a read of
an array element that was never written. -/
inductive Ending where
  | exit (arg : Int)
  | ret (value : Int)
  | uninitialised_read
  deriving DecidableEq, Repr

/-- Local variables of `main` together with the number of `fork` and `waitpid`
calls made so far. An array element or variable that has not been written is
`none`. -/
structure PState where
  child_pids : List (Option Int)
  status : Option Int
  nfork : Nat
  nwait : Nat
  deriving DecidableEq, Repr

/-- The creation loop `for (i = 0; i < NUM_CHILDREN; i++)` of lines 23-51, run
over the remaining values of `i`. Yields the actions performed, the state
reached and, when the process ended inside the loop, how. -/
def spawnLoop (env : Env) : List Nat → PState → List Event × PState × Option Ending
  | [], st => ([], st, none)
  | i :: rest, st =>
    let pid := env.fork st.nfork
    let st1 := { st with nfork := st.nfork + 1 }
    if pid < 0 then
      ([.fork pid, .perror_fork_failed], st1, some (.exit 1))
    else if pid = 0 then
      ([.fork pid,
        .printf_child_hello ((i : Int) + 1) env.child_getpid env.child_getppid,
        .sleep ((i : Int) + 1),
        .printf_child_terminating ((i : Int) + 1) env.child_getpid],
       st1, some (.exit ((i : Int) + 1)))
    else
      let st2 := { st1 with child_pids := st1.child_pids.set i (some pid) }
      let r := spawnLoop env rest st2
      (.fork pid :: .printf_created ((i : Int) + 1) pid :: .fflush :: r.1, r.2.1, r.2.2)

/-- What lines 60-75 print for the value `terminated_pid` returned by `waitpid`
and the status word it stored. -/
def reapReport (terminated_pid status : Int) : List Event :=
  if terminated_pid > 0 then
    [.printf_cleaned_up terminated_pid]
      ++ (if WIFEXITED status then [.printf_exited_normally (WEXITSTATUS status)]
          else if WIFSIGNALED status then [.printf_terminated_by_signal (WTERMSIG status)]
          else [])
      ++ [.printf_newline]
  else
    [.perror_waitpid_failed]

/-- The reaping loop `for (i = 0; i < NUM_CHILDREN; i++)` of lines 57-76, run
over the remaining values of `i`. The report reads `status` only after a
positive result, when the variable holds the word the call has just stored. -/
def reapLoop (env : Env) : List Nat → PState → List Event × PState × Option Ending
  | [], st => ([], st, none)
  | i :: rest, st =>
    match st.child_pids.getD i none with
    | none => ([], st, some .uninitialised_read)
    | some cpid =>
      let w := env.waitpid st.nwait cpid 0
      let st1 := { st with
        nwait := st.nwait + 1
        status := if w.1 > 0 then some w.2 else st.status }
      let r := reapLoop env rest st1
      (.waitpid cpid 0 w.1 :: reapReport w.1 w.2 ++ r.1, r.2.1, r.2.2)

/-- Result of running `main` in one process. -/
structure Run where
  trace : List Event
  ending : Ending
  final : PState
  deriving DecidableEq, Repr

/-- State at entry of `main`: nothing written, no call made. -/
def initialState : PState :=
  { child_pids := List.replicate NUM_CHILDREN none, status := none, nfork := 0, nwait := 0 }

/-- Actions of lines 16-21. -/
def prologue (env : Env) : List Event :=
  [.printf_banner, .printf_parent_pid env.getpid, .printf_creating NUM_CHILDREN, .fflush]

/-- The function `main` of `zombie_prevention.c`. -/
def main (env : Env) : Run :=
  let s := spawnLoop env (List.range NUM_CHILDREN) initialState
  match s.2.2 with
  | some e => { trace := prologue env ++ s.1, ending := e, final := s.2.1 }
  | none =>
    let r := reapLoop env (List.range NUM_CHILDREN) s.2.1
    match r.2.2 with
    | some e =>
      { trace := prologue env ++ s.1 ++ [.printf_waiting_header] ++ r.1,
        ending := e, final := r.2.1 }
    | none =>
      { trace := prologue env ++ s.1 ++ [.printf_waiting_header] ++ r.1
          ++ [.printf_all_cleaned, .printf_parent_exiting env.getpid],
        ending := .ret 0, final := r.2.1 }

/-- Values returned by the `fork()` calls of a trace, in order. -/
def forkResults : List Event → List Int
  | [] => []
  | .fork ret :: rest => ret :: forkResults rest
  | _ :: rest => forkResults rest

/-- Process ids of the children a trace created: the positive `fork()` results. -/
def createdChildren (tr : List Event) : List Int := (forkResults tr).filter (fun p => 0 < p)

/-- The `waitpid` calls of a trace, in order: `(pid, options, result)`. -/
def waitCalls : List Event → List (Int × Int × Int)
  | [] => []
  | .waitpid pid options ret :: rest => (pid, options, ret) :: waitCalls rest
  | _ :: rest => waitCalls rest

/-- The classification lines of a trace, in order. -/
def classifications : List Event → List Event
  | [] => []
  | .printf_exited_normally c :: rest => .printf_exited_normally c :: classifications rest
  | .printf_terminated_by_signal s :: rest =>
    .printf_terminated_by_signal s :: classifications rest
  | _ :: rest => classifications rest

/-- Entries of the registry that have been written. -/
def recorded (st : PState) : List Int := st.child_pids.filterMap id

/-- The environment of the child made by the k-th `fork()` of the run `env`:
the same history, and the k-th call returns `0`. -/
def childView (env : Env) (k : Nat) : Env :=
  { env with fork := fun n => if n = k then 0 else env.fork n }

/-- The actions a process performs itself after `fork()` returned `0` to it:
what follows the first `fork 0` of its trace. -/
def afterForkZero : List Event → List Event
  | [] => []
  | .fork ret :: rest => if ret = 0 then rest else afterForkZero rest
  | _ :: rest => afterForkZero rest

/-- Actions of one pass of the reaping loop, up to the next `waitpid` call or
the closing line of line 78. -/
def untilNextWait : List Event → List Event
  | [] => []
  | .waitpid _ _ _ :: _ => []
  | .printf_all_cleaned :: _ => []
  | e :: rest => e :: untilNextWait rest

/-- The part of a trace that belongs to the k-th `waitpid` call (counted from
0): the call and what the process does before the next one. -/
def reapIteration : Nat → List Event → List Event
  | _, [] => []
  | 0, .waitpid pid options ret :: rest => .waitpid pid options ret :: untilNextWait rest
  | k + 1, .waitpid _ _ _ :: rest => reapIteration k rest
  | k, _ :: rest => reapIteration k rest

/-- The status word the parent's wait obtains for a child whose run ended with
`e`: a `return` from `main` counts as `exit` of the value returned. -/
def endStatus : Ending → Option Int
  | .exit arg => some (statusOf (.exited arg))
  | .ret value => some (statusOf (.exited value))
  | .uninitialised_read => none

/-- Every creation call of the parent succeeds. -/
def Env.forksSucceed (env : Env) : Prop := ∀ j, j < NUM_CHILDREN → 0 < env.fork j

instance (env : Env) : Decidable env.forksSucceed :=
  inferInstanceAs (Decidable (∀ j, j < NUM_CHILDREN → 0 < env.fork j))

/-- The k-th creation call is the first that fails. -/
def Env.firstFailureAt (env : Env) (k : Nat) : Prop :=
  (∀ j, j < k → 0 < env.fork j) ∧ env.fork k < 0

instance (env : Env) (k : Nat) : Decidable (env.firstFailureAt k) :=
  inferInstanceAs (Decidable ((∀ j, j < k → 0 < env.fork j) ∧ env.fork k < 0))

/-- Result of the k-th `waitpid` call when the registry holds the results of
the creation calls. -/
def waitResult (env : Env) (k : Nat) : Int × Int := env.waitpid k (env.fork k) 0

/-- The registry after five successful creations. -/
def fullRegistry (env : Env) : List (Option Int) :=
  [some (env.fork 0), some (env.fork 1), some (env.fork 2), some (env.fork 3),
   some (env.fork 4)]

/-- Actions of the creation loop in the parent when the five calls succeed. -/
def spawnTrace (env : Env) : List Event :=
  [.fork (env.fork 0), .printf_created 1 (env.fork 0), .fflush,
   .fork (env.fork 1), .printf_created 2 (env.fork 1), .fflush,
   .fork (env.fork 2), .printf_created 3 (env.fork 2), .fflush,
   .fork (env.fork 3), .printf_created 4 (env.fork 3), .fflush,
   .fork (env.fork 4), .printf_created 5 (env.fork 4), .fflush]

/-- Actions of pass `k` of the reaping loop in the parent when the five
creation calls succeeded. -/
def reapSegment (env : Env) (k : Nat) : List Event :=
  .waitpid (env.fork k) 0 (waitResult env k).1
    :: reapReport (waitResult env k).1 (waitResult env k).2

/-- Sample environment: children 101..105, every wait succeeds with the status
of a child that called `exit(k+1)`. -/
def sampleEnv : Env :=
  { getpid := 100, child_getpid := 999, child_getppid := 100,
    fork := fun n => 101 + n,
    waitpid := fun n pid _ => (pid, statusOf (.exited ((n : Int) + 1))) }

/-- Sample environment: as `sampleEnv`, but the third wait fails. -/
def failingWaitEnv : Env :=
  { sampleEnv with
    waitpid := fun n pid _ => if n = 2 then (-1, 0) else (pid, statusOf (.exited ((n : Int) + 1))) }

/-- Sample environment: the first creation succeeds (child 101), the second
fails. -/
def secondForkFailsEnv : Env :=
  { sampleEnv with fork := fun n => if n = 0 then 101 else -1 }

end Zombie

/-! ## `signal_handling.c` -/

namespace SignalDemo

/-- Signal number of `SIGINT` in `<signal.h>`. -/
def SIGINT : Int := 2

/-- Signal number of `SIGTERM` in `<signal.h>`. -/
def SIGTERM : Int := 15

/-- Option `WNOHANG` of `<sys/wait.h>`. -/
def WNOHANG : Int := 1

/-- The two file-scope latches, `volatile sig_atomic_t`, lines 10-11. -/
structure Globals where
  sigterm_received : Int
  sigint_received : Int
  deriving DecidableEq, Repr

/-- Values the operating system hands to one process running `main`. -/
structure Env where
  /-- Result of `getpid()` in the process that started `main`. -/
  getpid : Int
  /-- Result of `getpid()` after a `fork()` that returned `0`. -/
  child_getpid : Int
  /-- Result of `getppid()` after a `fork()` that returned `0`. -/
  child_getppid : Int
  /-- Value returned by the n-th call of `sigaction` (counted from 0). -/
  sigaction : Nat → Int
  /-- Value returned by the n-th call of `fork()` (counted from 0). -/
  fork : Nat → Int
  /-- Value returned by the call of `kill` a child makes. -/
  kill : Int
  /-- Value returned by the n-th call of `waitpid(pid, &status, options)`. -/
  waitpid : Nat → Int → Int → Int

/-- Observable actions of the process. A `printf` or `perror` is named by its
line in `signal_handling.c`; `args` are the numbers it formats. -/
inductive Event where
  | printf (line : Nat) (args : List Int)
  | perror (line : Nat)
  | fflush
  | sigaction (signum ret : Int)
  | fork (ret : Int)
  | sleep (secs : Int)
  | kill (pid sig ret : Int)
  | waitpid (pid options ret : Int)
  deriving DecidableEq, Repr

/-- How the process ends: a call of `exit` or a `return` from `main`. -/
inductive Ending where
  | exit (arg : Int)
  | ret (value : Int)
  deriving DecidableEq, Repr

/-- The handler `sigterm_handler`, lines 14-19: three lines of output, then the
store `sigterm_received = 1`. -/
def sigterm_handler (signum : Int) (g : Globals) : List Event × Globals :=
  ([.printf 15 [signum], .printf 16 [], .printf 17 []], { g with sigterm_received := 1 })

/-- The handler `sigint_handler`, lines 22-27: three lines of output, then the
store `sigint_received = 1`. -/
def sigint_handler (signum : Int) (g : Globals) : List Event × Globals :=
  ([.printf 23 [signum], .printf 24 [], .printf 25 []], { g with sigint_received := 1 })

/-- Where the parent stands. The condition of the `while` of line 129 and of
the `if` of line 134 read the two latches one after the other, so each has
one point per read. -/
inductive PC where
  | while_test_sigterm
  | while_test_sigint
  | printf_working
  | sleep
  | if_test_sigterm
  | if_test_sigint
  | printf_still_waiting
  | after_loop
  | terminated
  deriving DecidableEq, Repr

/-- State of the process: the latches, the locals of `main`, the program point,
the number of `waitpid` calls made, the actions performed so far and, once the
process has ended, how. A local that has not been assigned is `none`. -/
structure MState where
  g : Globals
  counter : Int
  child1_pid : Option Int
  child2_pid : Option Int
  pc : PC
  nwait : Nat
  trace : List Event
  ending : Option Ending
  deriving DecidableEq, Repr

/-- The child branch of the first `fork`, lines 72-89. -/
def child1 (env : Env) (parent_pid : Int) : List Event × Ending :=
  let pre : List Event :=
    [.printf 73 [env.child_getpid, env.child_getppid], .printf 74 [], .fflush, .sleep 5,
     .printf 79 [parent_pid], .fflush, .kill parent_pid SIGTERM env.kill]
  if env.kill = -1 then (pre ++ [.perror 83], .exit 1)
  else (pre ++ [.printf 87 [], .fflush], .exit 0)

/-- The child branch of the second `fork`, lines 101-118. -/
def child2 (env : Env) (parent_pid : Int) : List Event × Ending :=
  let pre : List Event :=
    [.printf 102 [env.child_getpid, env.child_getppid], .printf 103 [], .fflush, .sleep 10,
     .printf 108 [parent_pid], .fflush, .kill parent_pid SIGINT env.kill]
  if env.kill = -1 then (pre ++ [.perror 112], .exit 1)
  else (pre ++ [.printf 116 [], .fflush], .exit 0)

/-- A state in which the process has ended. -/
def ended (g : Globals) (c1 c2 : Option Int) (tr : List Event) (e : Ending) : MState :=
  { g := g, counter := 0, child1_pid := c1, child2_pid := c2, pc := .terminated,
    nwait := 0, trace := tr, ending := some e }

/-- Lines 30-128 of `main`: registration of the two handlers and creation of
the two children, up to the entry of the `while` loop (`sigemptyset` and the
stores into `sa_term` / `sa_int` have no observable effect and are left out).
The latches start at `0` (lines 10-11). -/
def setup (env : Env) : MState :=
  let g0 : Globals := { sigterm_received := 0, sigint_received := 0 }
  let parent_pid := env.getpid
  let t0 : List Event :=
    [.printf 33 [], .printf 34 [parent_pid], .sigaction SIGTERM (env.sigaction 0)]
  if env.sigaction 0 = -1 then ended g0 none none (t0 ++ [.perror 45]) (.exit 1) else
  let t1 := t0 ++ [.sigaction SIGINT (env.sigaction 1)]
  if env.sigaction 1 = -1 then ended g0 none none (t1 ++ [.perror 55]) (.exit 1) else
  let child1_pid := env.fork 0
  let t2 := t1 ++ [.printf 59 [], .printf 60 [], .printf 61 [], .fflush, .fork child1_pid]
  if child1_pid < 0 then ended g0 (some child1_pid) none (t2 ++ [.perror 68]) (.exit 1) else
  if child1_pid = 0 then
    ended g0 (some child1_pid) none (t2 ++ (child1 env parent_pid).1) (child1 env parent_pid).2
  else
  let child2_pid := env.fork 1
  let t3 := t2 ++ [.fflush, .fork child2_pid]
  if child2_pid < 0 then
    ended g0 (some child1_pid) (some child2_pid) (t3 ++ [.perror 97]) (.exit 1)
  else if child2_pid = 0 then
    ended g0 (some child1_pid) (some child2_pid) (t3 ++ (child2 env parent_pid).1)
      (child2 env parent_pid).2
  else
    { g := g0, counter := 0, child1_pid := some child1_pid, child2_pid := some child2_pid,
      pc := .while_test_sigterm, nwait := 0,
      trace := t3 ++ [.printf 122 [child1_pid], .printf 123 [child2_pid],
                      .printf 124 [], .printf 125 []],
      ending := none }

/-- Lines 140-162: the two non-blocking reaps and the closing output. -/
def cleanup (env : Env) (s : MState) : MState :=
  let c1 := s.child1_pid.getD 0
  let c2 := s.child2_pid.getD 0
  let w1 := env.waitpid s.nwait c1 WNOHANG
  let w2 := env.waitpid (s.nwait + 1) c2 WNOHANG
  { s with
    pc := .terminated
    nwait := s.nwait + 2
    ending := some (.ret 0)
    trace := s.trace ++ [.printf 140 [], .printf 141 [], .printf 144 [], .waitpid c1 WNOHANG w1]
      ++ (if w1 = c1 then [.printf 151 [c1]] else [])
      ++ [.waitpid c2 WNOHANG w2]
      ++ (if w2 = c2 then [.printf 156 [c2]] else [])
      ++ [.printf 159 [], .printf 160 []] }

/-- One step of the parent's own control flow, from line 129 on. -/
def mainStep (env : Env) (s : MState) : MState :=
  match s.pc with
  | .while_test_sigterm =>
    if s.g.sigterm_received = 0 then { s with pc := .printf_working }
    else { s with pc := .while_test_sigint }
  | .while_test_sigint =>
    if s.g.sigint_received = 0 then { s with pc := .printf_working }
    else { s with pc := .after_loop }
  | .printf_working =>
    { s with counter := s.counter + 1, pc := .sleep,
             trace := s.trace ++ [.printf 130 [s.counter + 1]] }
  | .sleep => { s with pc := .if_test_sigterm, trace := s.trace ++ [.sleep 2] }
  | .if_test_sigterm =>
    if s.g.sigterm_received ≠ 0 then { s with pc := .if_test_sigint }
    else { s with pc := .while_test_sigterm }
  | .if_test_sigint =>
    if s.g.sigint_received = 0 then { s with pc := .printf_still_waiting }
    else { s with pc := .while_test_sigterm }
  | .printf_still_waiting =>
    { s with pc := .while_test_sigterm, trace := s.trace ++ [.printf 135 []] }
  | .after_loop => cleanup env s
  | .terminated => s

/-- What can happen next: the parent takes a step of its own, or one of the
two signals is delivered to it. -/
inductive Action where
  | step
  | deliver_SIGTERM
  | deliver_SIGINT
  deriving DecidableEq, Repr

/-- Delivery of `SIGTERM` to the parent: the handler installed at line 44 runs
with the signal number. A process that has ended handles nothing. -/
def deliverSIGTERM (s : MState) : MState :=
  if s.pc = .terminated then s
  else { s with g := (sigterm_handler SIGTERM s.g).2,
                trace := s.trace ++ (sigterm_handler SIGTERM s.g).1 }

/-- Delivery of `SIGINT` to the parent: the handler installed at line 54 runs
with the signal number. A process that has ended handles nothing. -/
def deliverSIGINT (s : MState) : MState :=
  if s.pc = .terminated then s
  else { s with g := (sigint_handler SIGINT s.g).2,
                trace := s.trace ++ (sigint_handler SIGINT s.g).1 }

/-- Effect of one action. -/
def act (env : Env) (s : MState) : Action → MState
  | .step => mainStep env s
  | .deliver_SIGTERM => deliverSIGTERM s
  | .deliver_SIGINT => deliverSIGINT s

/-- Effect of a sequence of actions, first to last. -/
def exec (env : Env) : List Action → MState → MState
  | [], s => s
  | a :: rest, s => exec env rest (act env s a)

/-- The function `main` of `signal_handling.c` under a schedule: the setup,
then the actions of the schedule. A handler only prints and stores into its
own latch, so a delivery that falls between the registrations and line 128 has
the effect on the latches of the same delivery at the head of the schedule. -/
def main (env : Env) (schedule : List Action) : MState :=
  exec env schedule (setup env)

/-- The condition of the `while` of line 129:
`!sigterm_received || !sigint_received`. -/
def whileCondition (g : Globals) : Bool :=
  g.sigterm_received == 0 || g.sigint_received == 0

/-- Program points inside the `while` loop of lines 129-137. -/
def PC.inLoop : PC → Bool
  | .after_loop => false
  | .terminated => false
  | _ => true

/-- Values returned by the `fork()` calls of a trace, in order. -/
def forkResults : List Event → List Int
  | [] => []
  | .fork ret :: rest => ret :: forkResults rest
  | _ :: rest => forkResults rest

/-- Process ids of the children a trace created: the positive `fork()` results. -/
def createdChildren (tr : List Event) : List Int := (forkResults tr).filter (fun p => 0 < p)

/-- The registry of the signal demo: the child ids held in `child1_pid` and
`child2_pid`. Each variable is assigned the result of its `fork()` call
(lines 65 and 94), so it holds a child id when it has been assigned a positive
value; an unassigned variable and the result of a failed call hold none. -/
def recorded (s : MState) : List Int :=
  ([s.child1_pid, s.child2_pid].filterMap id).filter (fun p => 0 < p)

/-- Sample environment: every call succeeds, children 201 and 202. -/
def sampleEnv : Env :=
  { getpid := 200, child_getpid := 999, child_getppid := 200,
    sigaction := fun _ => 0, fork := fun n => 201 + n, kill := 0,
    waitpid := fun _ pid _ => pid }

/-- Invariant of the parent: the second operand of the loop condition is read
only after the first latch was seen set, and the code after the loop is
reached only with both latches set. -/
def LoopInvariant (s : MState) : Prop :=
  (s.pc = .while_test_sigint → s.g.sigterm_received ≠ 0) ∧
  ((s.pc = .after_loop ∨ s.ending = some (.ret 0)) →
    s.g.sigterm_received ≠ 0 ∧ s.g.sigint_received ≠ 0)

/-- Invariant of the parent while `SIGTERM` has not been delivered: the first
latch is unset and the parent is inside the loop, never at the read of the
second operand of the loop condition. -/
def WaitingInvariant (s : MState) : Prop :=
  s.g.sigterm_received = 0 ∧ s.pc.inLoop = true ∧ s.pc ≠ .while_test_sigint

/-- Both handler registrations succeed. -/
def Env.registrationSucceeds (env : Env) : Prop :=
  env.sigaction 0 ≠ -1 ∧ env.sigaction 1 ≠ -1

instance (env : Env) : Decidable env.registrationSucceeds :=
  inferInstanceAs (Decidable (env.sigaction 0 ≠ -1 ∧ env.sigaction 1 ≠ -1))

/-- The k-th creation call is the first that fails. -/
def Env.firstFailureAt (env : Env) (k : Nat) : Prop :=
  (∀ j, j < k → 0 < env.fork j) ∧ env.fork k < 0

instance (env : Env) (k : Nat) : Decidable (env.firstFailureAt k) :=
  inferInstanceAs (Decidable ((∀ j, j < k → 0 < env.fork j) ∧ env.fork k < 0))

/-- The parent reaches the `while` loop: both registrations and both creation
calls succeed. -/
def Env.setupSucceeds (env : Env) : Prop :=
  env.registrationSucceeds ∧ 0 < env.fork 0 ∧ 0 < env.fork 1

instance (env : Env) : Decidable env.setupSucceeds :=
  inferInstanceAs (Decidable (env.registrationSucceeds ∧ 0 < env.fork 0 ∧ 0 < env.fork 1))

/-- Sample environment: the first creation succeeds (child 201), the second
fails. -/
def secondForkFailsEnv : Env :=
  { sampleEnv with fork := fun n => if n = 0 then 201 else -1 }

/-- Sample environment: the registration for `SIGTERM` succeeds, the one for
`SIGINT` fails. -/
def sigintRegistrationFailsEnv : Env :=
  { sampleEnv with sigaction := fun n => if n = 0 then 0 else -1 }

end SignalDemo

/-! ## Lemmas on the zombie-prevention demo -/

namespace Zombie

open WaitStatus

theorem range_NUM_CHILDREN : List.range NUM_CHILDREN = [0, 1, 2, 3, 4] := by decide

theorem spawnLoop_all_succeed (env : Env) (h : env.forksSucceed) :
    spawnLoop env (List.range NUM_CHILDREN) initialState
      = (spawnTrace env,
         { child_pids := fullRegistry env, status := none, nfork := 5, nwait := 0 }, none) := by
  have h0 := h 0 (by decide)
  have h1 := h 1 (by decide)
  have h2 := h 2 (by decide)
  have h3 := h 3 (by decide)
  have h4 := h 4 (by decide)
  simp [range_NUM_CHILDREN, spawnLoop, initialState, spawnTrace, fullRegistry, NUM_CHILDREN,
    not_lt.mpr h0.le, not_lt.mpr h1.le, not_lt.mpr h2.le, not_lt.mpr h3.le, not_lt.mpr h4.le,
    h0.ne', h1.ne', h2.ne', h3.ne', h4.ne']

theorem reapLoop_full_trace (env : Env) (st : Option Int) :
    (reapLoop env (List.range NUM_CHILDREN)
        { child_pids := fullRegistry env, status := st, nfork := 5, nwait := 0 }).1
      = reapSegment env 0 ++ (reapSegment env 1 ++ (reapSegment env 2
          ++ (reapSegment env 3 ++ reapSegment env 4))) := by
  simp [range_NUM_CHILDREN, reapLoop, fullRegistry, reapSegment, waitResult]

theorem reapLoop_full_ending (env : Env) (st : Option Int) :
    (reapLoop env (List.range NUM_CHILDREN)
        { child_pids := fullRegistry env, status := st, nfork := 5, nwait := 0 }).2.2 = none := by
  simp [range_NUM_CHILDREN, reapLoop, fullRegistry]

theorem reapLoop_full_registry (env : Env) (st : Option Int) :
    (reapLoop env (List.range NUM_CHILDREN)
        { child_pids := fullRegistry env, status := st, nfork := 5, nwait := 0 }).2.1.child_pids
      = fullRegistry env := by
  simp [range_NUM_CHILDREN, reapLoop, fullRegistry]

/-- Closed form of the parent's trace when the five creation calls succeed. -/
theorem main_trace_all_succeed (env : Env) (h : env.forksSucceed) :
    (main env).trace
      = prologue env ++ spawnTrace env ++ [.printf_waiting_header]
          ++ (reapSegment env 0 ++ (reapSegment env 1 ++ (reapSegment env 2
              ++ (reapSegment env 3 ++ reapSegment env 4))))
          ++ [.printf_all_cleaned, .printf_parent_exiting env.getpid] := by
  simp only [main, spawnLoop_all_succeed env h, reapLoop_full_ending, reapLoop_full_trace]

theorem main_ending_all_succeed (env : Env) (h : env.forksSucceed) :
    (main env).ending = .ret 0 := by
  simp only [main, spawnLoop_all_succeed env h, reapLoop_full_ending]

theorem main_registry_all_succeed (env : Env) (h : env.forksSucceed) :
    (main env).final.child_pids = fullRegistry env := by
  simp only [main, spawnLoop_all_succeed env h, reapLoop_full_ending, reapLoop_full_registry]

theorem untilNextWait_reapReport (r s : Int) (rest : List Event) :
    untilNextWait (reapReport r s ++ rest) = reapReport r s ++ untilNextWait rest := by
  unfold reapReport
  split_ifs <;> simp [untilNextWait]

theorem reapIteration_reapReport (k : Nat) (r s : Int) (rest : List Event) :
    reapIteration k (reapReport r s ++ rest) = reapIteration k rest := by
  unfold reapReport
  split_ifs <;> cases k <;> simp [reapIteration]

theorem reapIteration_zero_segment (env : Env) (j : Nat) (rest : List Event) :
    reapIteration 0 (reapSegment env j ++ rest) = reapSegment env j ++ untilNextWait rest := by
  simp [reapSegment, reapIteration, untilNextWait_reapReport]

theorem reapIteration_succ_segment (env : Env) (j k : Nat) (rest : List Event) :
    reapIteration (k + 1) (reapSegment env j ++ rest) = reapIteration k rest := by
  simp [reapSegment, reapIteration, reapIteration_reapReport]

theorem reapIteration_skip_creation (env : Env) (k : Nat) (rest : List Event) :
    reapIteration k (prologue env ++ spawnTrace env ++ [.printf_waiting_header] ++ rest)
      = reapIteration k rest := by
  cases k <;> simp [prologue, spawnTrace, reapIteration]

/-- The part of the parent's trace that belongs to pass `k` of the reaping
loop is the `waitpid` call on entry `k` followed by its report. -/
theorem reapIteration_main (env : Env) (h : env.forksSucceed) (k : Nat)
    (hk : k < NUM_CHILDREN) :
    reapIteration k (main env).trace = reapSegment env k := by
  rw [main_trace_all_succeed env h]
  simp only [List.append_assoc]
  have := reapIteration_skip_creation env k
  simp only [List.append_assoc] at this
  rw [this]
  have hk5 : k < 5 := hk
  have hstop : ∀ (j : Nat) (rest : List Event),
      untilNextWait (reapSegment env j ++ rest) = [] := by
    intro j rest
    simp [reapSegment, untilNextWait]
  interval_cases k
  · rw [reapIteration_zero_segment, hstop, List.append_nil]
  · rw [reapIteration_succ_segment, reapIteration_zero_segment, hstop, List.append_nil]
  · rw [reapIteration_succ_segment, reapIteration_succ_segment, reapIteration_zero_segment,
      hstop, List.append_nil]
  · rw [reapIteration_succ_segment, reapIteration_succ_segment, reapIteration_succ_segment,
      reapIteration_zero_segment, hstop, List.append_nil]
  · rw [reapIteration_succ_segment, reapIteration_succ_segment, reapIteration_succ_segment,
      reapIteration_succ_segment, reapIteration_zero_segment]
    simp [untilNextWait]

end Zombie

/-! ## Claims on the zombie-prevention demo -/

namespace Zombie

open WaitStatus

theorem forkResults_reapReport (r s : Int) (rest : List Event) :
    forkResults (reapReport r s ++ rest) = forkResults rest := by
  unfold reapReport
  split_ifs <;> simp [forkResults]

theorem waitCalls_reapReport (r s : Int) (rest : List Event) :
    waitCalls (reapReport r s ++ rest) = waitCalls rest := by
  unfold reapReport
  split_ifs <;> simp [waitCalls]

theorem waitCalls_reapSegment (env : Env) (k : Nat) (rest : List Event) :
    waitCalls (reapSegment env k ++ rest)
      = (env.fork k, 0, (waitResult env k).1) :: waitCalls rest := by
  simp [reapSegment, waitCalls, waitCalls_reapReport]

theorem forkResults_reapSegment (env : Env) (k : Nat) (rest : List Event) :
    forkResults (reapSegment env k ++ rest) = forkResults rest := by
  simp [reapSegment, forkResults, forkResults_reapReport]

theorem waitCalls_main (env : Env) (h : env.forksSucceed) :
    waitCalls (main env).trace
      = (List.range NUM_CHILDREN).map (fun k => (env.fork k, 0, (waitResult env k).1)) := by
  rw [main_trace_all_succeed env h, range_NUM_CHILDREN]
  simp only [List.append_assoc, waitCalls_reapSegment]
  simp [prologue, spawnTrace, waitCalls, waitCalls_reapSegment, waitCalls_reapReport]

theorem forkResults_main (env : Env) (h : env.forksSucceed) :
    forkResults (main env).trace = (List.range NUM_CHILDREN).map env.fork := by
  rw [main_trace_all_succeed env h, range_NUM_CHILDREN]
  simp only [List.append_assoc]
  simp [prologue, spawnTrace, forkResults, forkResults_reapSegment, forkResults_reapReport]

theorem fullRegistry_eq (env : Env) :
    fullRegistry env = (List.range NUM_CHILDREN).map (fun k => some (env.fork k)) := by
  simp [fullRegistry, range_NUM_CHILDREN]

/-- The run of the child made by creation call `k`: it ends with `exit(k+1)`,
and after the `fork()` that returned `0` it only prints, sleeps and prints. -/
theorem child_run (env : Env) (h : env.forksSucceed) (k : Nat) (hk : k < NUM_CHILDREN) :
    (main (childView env k)).ending = .exit ((k : Int) + 1) ∧
    afterForkZero (main (childView env k)).trace
      = [.printf_child_hello ((k : Int) + 1) env.child_getpid env.child_getppid,
         .sleep ((k : Int) + 1),
         .printf_child_terminating ((k : Int) + 1) env.child_getpid] ∧
    waitCalls (main (childView env k)).trace = [] := by
  have h0 := h 0 (by decide)
  have h1 := h 1 (by decide)
  have h2 := h 2 (by decide)
  have h3 := h 3 (by decide)
  have h4 := h 4 (by decide)
  have hk5 : k < 5 := hk
  interval_cases k <;>
    simp [main, range_NUM_CHILDREN, spawnLoop, initialState, childView, prologue,
      afterForkZero, waitCalls,
      not_lt.mpr h0.le, not_lt.mpr h1.le, not_lt.mpr h2.le, not_lt.mpr h3.le, not_lt.mpr h4.le,
      h0.ne', h1.ne', h2.ne', h3.ne', h4.ne']

/-- C3. Nominal run of the zombie demo: the five creations succeed and every
wait succeeds and stores the status of the child's own ending (the child made
by call `k` runs the child branch of `main`). Then, for every child `i = k + 1`
in `1..5`, the registry entry `k` is the child's id and pass `k` of the reaping
loop is: the wait on that id, the clean-up line, the line "exited normally"
with code `i`, and the blank line; no "terminated by signal" line. -/
theorem nominal_run_reports_exit_codes (env : Env) (hf : env.forksSucceed)
    (hw : ∀ k, k < NUM_CHILDREN →
      0 < (env.waitpid k (env.fork k) 0).1 ∧
      some (env.waitpid k (env.fork k) 0).2 = endStatus (main (childView env k)).ending) :
    ∀ k, k < NUM_CHILDREN →
      (main env).final.child_pids.getD k none = some (env.fork k) ∧
      reapIteration k (main env).trace
        = [.waitpid (env.fork k) 0 (env.waitpid k (env.fork k) 0).1,
           .printf_cleaned_up (env.waitpid k (env.fork k) 0).1,
           .printf_exited_normally ((k : Int) + 1),
           .printf_newline] := by
  intro k hk
  have hreg := main_registry_all_succeed env hf
  have hit := reapIteration_main env hf k hk
  obtain ⟨hpos, hst⟩ := hw k hk
  rw [(child_run env hf k hk).1] at hst
  simp only [endStatus, Option.some.injEq] at hst
  rw [hreg, hit]
  have hk5 : k < 5 := hk
  constructor
  · interval_cases k <;> simp [fullRegistry]
  · simp only [reapSegment, waitResult, reapReport, hst, hpos, gt_iff_lt, if_true]
    interval_cases k <;>
      simp [statusOf, W_EXITCODE, WIFEXITED, WTERMSIG, WEXITSTATUS]

/-- Witness for C3: the sample environment is a nominal run. -/
theorem nominal_run_reports_exit_codes_witness :
    sampleEnv.forksSucceed ∧
    reapIteration 4 (main sampleEnv).trace
      = [.waitpid (sampleEnv.fork 4) 0 (sampleEnv.waitpid 4 (sampleEnv.fork 4) 0).1,
         .printf_cleaned_up (sampleEnv.waitpid 4 (sampleEnv.fork 4) 0).1,
         .printf_exited_normally (((4 : Nat) : Int) + 1),
         .printf_newline] :=
  ⟨by decide,
   (nominal_run_reports_exit_codes sampleEnv (by decide) (by decide) 4 (by decide)).2⟩

/-- C4. The report of a successful wait (`terminated_pid > 0`) never holds two
classification lines, and an "exited normally" line carries a code in
`0..255`, whatever the status word. For every status word a wait delivers for
a terminated child (ended by `exit`, or killed by a signal `1..126` with or
without core dump) the report holds exactly one classification line: "exited
normally" with the low eight bits of the exit argument, or "terminated by
signal" with the signal number. -/
theorem reap_decodes_exactly_one (terminated_pid : Int) (hpos : 0 < terminated_pid) :
    (∀ status : Int,
      (classifications (reapReport terminated_pid status)).length ≤ 1 ∧
      ∀ c, Event.printf_exited_normally c ∈ reapReport terminated_pid status →
        0 ≤ c ∧ c ≤ 255) ∧
    (∀ t : Termination, t.wellFormed →
      classifications (reapReport terminated_pid (statusOf t))
        = [match t with
           | .exited arg => Event.printf_exited_normally (arg % 256)
           | .killed sig _ => Event.printf_terminated_by_signal sig]) := by
  refine ⟨?_, ?_⟩
  · intro status
    unfold reapReport
    rw [if_pos hpos]
    refine ⟨?_, ?_⟩
    · split_ifs <;> simp [classifications]
    · intro c hc
      split_ifs at hc <;> simp [WEXITSTATUS] at hc
      subst hc
      omega
  · intro t ht
    unfold reapReport
    rw [if_pos hpos]
    cases t with
    | exited arg =>
      have h1 : WIFEXITED (statusOf (.exited arg)) = true := by
        simp only [WIFEXITED, WTERMSIG, statusOf, W_EXITCODE, beq_iff_eq]
        omega
      have h2 : WEXITSTATUS (statusOf (.exited arg)) = arg % 256 := by
        simp only [WEXITSTATUS, statusOf, W_EXITCODE]
        omega
      simp [h1, h2, classifications]
    | killed sig core =>
      obtain ⟨hlo, hhi⟩ := ht
      have h1 : WIFEXITED (statusOf (.killed sig core)) = false := by
        cases core <;>
          simp only [WIFEXITED, WTERMSIG, statusOf, W_EXITCODE, beq_eq_false_iff_ne, ne_eq] <;>
          simp <;> omega
      have h2 : WIFSIGNALED (statusOf (.killed sig core)) = true := by
        cases core <;>
          simp only [WIFSIGNALED, toSignedChar, statusOf, W_EXITCODE, decide_eq_true_eq] <;>
          simp <;> split_ifs <;> omega
      have h3 : WTERMSIG (statusOf (.killed sig core)) = sig := by
        cases core <;> simp only [WTERMSIG, statusOf, W_EXITCODE] <;> simp <;> omega
      simp [h1, h2, h3, classifications]

/-- Witness for C4: child 103 killed by signal 9. -/
theorem reap_decodes_exactly_one_witness :
    (0 : Int) < 103 ∧ (Termination.killed 9 false).wellFormed ∧
    classifications (reapReport 103 (statusOf (.killed 9 false)))
      = [Event.printf_terminated_by_signal ((9 : Nat) : Int)] :=
  ⟨by decide, by decide,
   (reap_decodes_exactly_one 103 (by decide)).2 (.killed 9 false) (by decide)⟩

/-- C5. When the parent reaches the reaping loop (the five creations
succeeded, so the registry holds the five positive ids returned), then for
every outcome of the wait calls: the `waitpid` calls of the run are exactly
five, the k-th is made on registry entry `k` with options `0` (blocking), in
the order `0,1,2,3,4`, and pass `k` of the loop consists of that call followed
by the report on its result, so the reports follow registry order. -/
theorem reap_follows_registry_order (env : Env) (hf : env.forksSucceed) :
    (main env).final.child_pids
      = (List.range NUM_CHILDREN).map (fun k => some (env.fork k)) ∧
    waitCalls (main env).trace
      = (List.range NUM_CHILDREN).map
          (fun k => (env.fork k, 0, (env.waitpid k (env.fork k) 0).1)) ∧
    ∀ k, k < NUM_CHILDREN →
      reapIteration k (main env).trace
        = .waitpid (env.fork k) 0 (env.waitpid k (env.fork k) 0).1
            :: reapReport (env.waitpid k (env.fork k) 0).1 (env.waitpid k (env.fork k) 0).2 := by
  refine ⟨?_, ?_, ?_⟩
  · rw [main_registry_all_succeed env hf, fullRegistry_eq]
  · simpa [waitResult] using waitCalls_main env hf
  · intro k hk
    simpa [reapSegment, waitResult] using reapIteration_main env hf k hk

/-- Witness for C5: the sample environment in which the third wait fails. -/
theorem reap_follows_registry_order_witness :
    failingWaitEnv.forksSucceed ∧
    waitCalls (main failingWaitEnv).trace
      = (List.range NUM_CHILDREN).map
          (fun k => (failingWaitEnv.fork k, 0,
            (failingWaitEnv.waitpid k (failingWaitEnv.fork k) 0).1)) :=
  ⟨by decide, (reap_follows_registry_order failingWaitEnv (by decide)).2.1⟩

/-- C6. When the parent reaches the reaping loop, then for every pattern of
wait results the run ends by `return 0` from `main` after five `waitpid`
calls; and for every entry `k` whose wait fails (result not positive), pass `k`
consists of the call and the error report only, with no classification line,
and the wait on every later entry `j` is still made, on registry entry `j`. -/
theorem wait_failure_skips_one_entry (env : Env) (hf : env.forksSucceed) :
    (main env).ending = .ret 0 ∧
    (waitCalls (main env).trace).length = NUM_CHILDREN ∧
    ∀ k, k < NUM_CHILDREN → (env.waitpid k (env.fork k) 0).1 ≤ 0 →
      reapIteration k (main env).trace
        = [.waitpid (env.fork k) 0 (env.waitpid k (env.fork k) 0).1, .perror_waitpid_failed] ∧
      classifications (reapIteration k (main env).trace) = [] ∧
      ∀ j, k < j → j < NUM_CHILDREN →
        (waitCalls (main env).trace)[j]?
          = some (env.fork j, 0, (env.waitpid j (env.fork j) 0).1) := by
  refine ⟨main_ending_all_succeed env hf, ?_, ?_⟩
  · rw [waitCalls_main env hf]
    simp
  · intro k hk hfail
    have hit := reapIteration_main env hf k hk
    have hseg : reapSegment env k
        = [.waitpid (env.fork k) 0 (env.waitpid k (env.fork k) 0).1,
           .perror_waitpid_failed] := by
      simp [reapSegment, waitResult, reapReport, not_lt.mpr hfail]
    refine ⟨by rw [hit, hseg], ?_, ?_⟩
    · rw [hit, hseg]
      simp [classifications]
    · intro j _ hj
      rw [waitCalls_main env hf]
      simp [waitResult, hj]

/-- Witness for C6: the sample environment in which the third wait fails. -/
theorem wait_failure_skips_one_entry_witness :
    failingWaitEnv.forksSucceed ∧
    (failingWaitEnv.waitpid 2 (failingWaitEnv.fork 2) 0).1 ≤ 0 ∧
    (main failingWaitEnv).ending = .ret 0 ∧
    reapIteration 2 (main failingWaitEnv).trace
      = [.waitpid (failingWaitEnv.fork 2) 0
          (failingWaitEnv.waitpid 2 (failingWaitEnv.fork 2) 0).1,
         .perror_waitpid_failed] :=
  ⟨by decide, by decide,
   (wait_failure_skips_one_entry failingWaitEnv (by decide)).1,
   ((wait_failure_skips_one_entry failingWaitEnv (by decide)).2.2 2 (by decide)
      (by decide)).1⟩

/-- C10. When every creation call succeeds, the parent makes exactly five
`fork()` calls, the children created are the five ids returned, and registry
position `k` holds the id returned by call `k` (child `i = k + 1`). The child
made by call `k` ends with `exit(k + 1)`; after the `fork()` that returned `0`
to it, it only prints, sleeps `k + 1` seconds and prints, so it makes no
`fork()` call, and its run holds no `waitpid` call. -/
theorem spawn_creates_exactly_the_registry (env : Env) (hf : env.forksSucceed) :
    forkResults (main env).trace = (List.range NUM_CHILDREN).map env.fork ∧
    createdChildren (main env).trace = (List.range NUM_CHILDREN).map env.fork ∧
    (main env).final.child_pids
      = (List.range NUM_CHILDREN).map (fun k => some (env.fork k)) ∧
    ∀ k, k < NUM_CHILDREN →
      (main (childView env k)).ending = .exit ((k : Int) + 1) ∧
      afterForkZero (main (childView env k)).trace
        = [.printf_child_hello ((k : Int) + 1) env.child_getpid env.child_getppid,
           .sleep ((k : Int) + 1),
           .printf_child_terminating ((k : Int) + 1) env.child_getpid] ∧
      forkResults (afterForkZero (main (childView env k)).trace) = [] ∧
      waitCalls (main (childView env k)).trace = [] := by
  refine ⟨forkResults_main env hf, ?_, ?_, ?_⟩
  · rw [createdChildren, forkResults_main env hf, List.filter_eq_self]
    intro p hp
    obtain ⟨j, hj, rfl⟩ := List.mem_map.mp hp
    simpa using hf j (List.mem_range.mp hj)
  · rw [main_registry_all_succeed env hf, fullRegistry_eq]
  · intro k hk
    obtain ⟨h1, h2, h3⟩ := child_run env hf k hk
    refine ⟨h1, h2, ?_, h3⟩
    rw [h2]
    simp [forkResults]

/-- Witness for C10: the sample environment. -/
theorem spawn_creates_exactly_the_registry_witness :
    sampleEnv.forksSucceed ∧
    forkResults (main sampleEnv).trace = (List.range NUM_CHILDREN).map sampleEnv.fork ∧
    (main (childView sampleEnv 2)).ending = .exit (((2 : Nat) : Int) + 1) :=
  ⟨by decide,
   (spawn_creates_exactly_the_registry sampleEnv (by decide)).1,
   ((spawn_creates_exactly_the_registry sampleEnv (by decide)).2.2.2 2 (by decide)).1⟩

end Zombie

/-! ## Lemmas on the signal-handling demo -/

namespace SignalDemo

theorem exec_append (env : Env) (a b : List Action) (s : MState) :
    exec env (a ++ b) s = exec env b (exec env a s) := by
  induction a generalizing s with
  | nil => rfl
  | cons x rest ih => simp [exec, ih]

theorem act_of_terminated (env : Env) (s : MState) (a : Action) (h : s.pc = .terminated) :
    act env s a = s := by
  cases a <;> simp [act, mainStep, deliverSIGTERM, deliverSIGINT, h]

theorem exec_of_terminated (env : Env) (acts : List Action) (s : MState)
    (h : s.pc = .terminated) : exec env acts s = s := by
  induction acts with
  | nil => rfl
  | cons a rest ih => simp [exec, act_of_terminated env s a h, ih]

/-- The parent's own steps do not write the latches. -/
theorem mainStep_g (env : Env) (s : MState) : (mainStep env s).g = s.g := by
  unfold mainStep
  split <;> (try split_ifs) <;> simp [cleanup]

/-- One action never clears `sigterm_received`. -/
theorem act_keeps_sigterm (env : Env) (s : MState) (a : Action)
    (h : s.g.sigterm_received ≠ 0) : (act env s a).g.sigterm_received ≠ 0 := by
  cases a
  · simpa [act, mainStep_g] using h
  · simp only [act, deliverSIGTERM, sigterm_handler]
    split_ifs <;> simp [h]
  · simp only [act, deliverSIGINT, sigint_handler]
    split_ifs <;> simp [h]

/-- One action never clears `sigint_received`. -/
theorem act_keeps_sigint (env : Env) (s : MState) (a : Action)
    (h : s.g.sigint_received ≠ 0) : (act env s a).g.sigint_received ≠ 0 := by
  cases a
  · simpa [act, mainStep_g] using h
  · simp only [act, deliverSIGTERM, sigterm_handler]
    split_ifs <;> simp [h]
  · simp only [act, deliverSIGINT, sigint_handler]
    split_ifs <;> simp [h]

theorem exec_keeps_sigterm (env : Env) (acts : List Action) (s : MState)
    (h : s.g.sigterm_received ≠ 0) : (exec env acts s).g.sigterm_received ≠ 0 := by
  induction acts generalizing s with
  | nil => exact h
  | cons a rest ih => exact ih _ (act_keeps_sigterm env s a h)

theorem exec_keeps_sigint (env : Env) (acts : List Action) (s : MState)
    (h : s.g.sigint_received ≠ 0) : (exec env acts s).g.sigint_received ≠ 0 := by
  induction acts generalizing s with
  | nil => exact h
  | cons a rest ih => exact ih _ (act_keeps_sigint env s a h)

/-- The two reads of line 129 taken together, with no delivery in between,
decide as the condition `!sigterm_received || !sigint_received` does. -/
theorem while_test_reads_condition (env : Env) (s : MState) (h : s.pc = .while_test_sigterm) :
    (if (mainStep env s).pc = .while_test_sigint then mainStep env (mainStep env s)
      else mainStep env s).pc
      = if whileCondition s.g then .printf_working else .after_loop := by
  by_cases h1 : s.g.sigterm_received = 0 <;> by_cases h2 : s.g.sigint_received = 0 <;>
    simp [mainStep, h, h1, h2, whileCondition]

theorem act_LoopInvariant (env : Env) (s : MState) (a : Action) (h : LoopInvariant s) :
    LoopInvariant (act env s a) := by
  obtain ⟨h1, h2⟩ := h
  cases a
  · simp only [act, mainStep]
    split <;> (try split_ifs) <;> simp_all [LoopInvariant, cleanup]
  · simp only [act, deliverSIGTERM, sigterm_handler]
    split_ifs <;> simp_all [LoopInvariant]
  · simp only [act, deliverSIGINT, sigint_handler]
    split_ifs <;> simp_all [LoopInvariant]

theorem exec_LoopInvariant (env : Env) (acts : List Action) (s : MState)
    (h : LoopInvariant s) : LoopInvariant (exec env acts s) := by
  induction acts generalizing s with
  | nil => exact h
  | cons a rest ih => exact ih _ (act_LoopInvariant env s a h)

theorem setup_LoopInvariant (env : Env) : LoopInvariant (setup env) := by
  unfold setup
  simp only []
  split_ifs <;> simp [LoopInvariant, ended, child1, child2] <;> split_ifs <;> simp

theorem setup_g (env : Env) :
    (setup env).g = { sigterm_received := 0, sigint_received := 0 } := by
  unfold setup
  simp only []
  split_ifs <;> simp [ended]

theorem setup_of_setupSucceeds (env : Env) (h : env.setupSucceeds) :
    (setup env).pc = .while_test_sigterm := by
  obtain ⟨⟨h0, h1⟩, hf0, hf1⟩ := h
  simp [setup, h0, h1, not_lt.mpr hf0.le, not_lt.mpr hf1.le, hf0.ne', hf1.ne']

theorem act_WaitingInvariant (env : Env) (s : MState) (a : Action)
    (ha : a ≠ .deliver_SIGTERM) (h : WaitingInvariant s) : WaitingInvariant (act env s a) := by
  obtain ⟨h1, h2, h3⟩ := h
  cases a
  · simp only [act, mainStep]
    split <;> (try split_ifs) <;> simp_all [WaitingInvariant, PC.inLoop]
  · exact absurd rfl ha
  · simp only [act, deliverSIGINT, sigint_handler]
    split_ifs <;> simp_all [WaitingInvariant]

theorem exec_WaitingInvariant (env : Env) (acts : List Action) (s : MState)
    (ha : Action.deliver_SIGTERM ∉ acts) (h : WaitingInvariant s) :
    WaitingInvariant (exec env acts s) := by
  induction acts generalizing s with
  | nil => exact h
  | cons a rest ih =>
    have hne : a ≠ .deliver_SIGTERM := fun e => ha (by simp [e])
    have hrest : Action.deliver_SIGTERM ∉ rest := fun e => ha (by simp [e])
    exact ih _ hrest (act_WaitingInvariant env s a hne h)

end SignalDemo

/-! ## Claims on the signal-handling demo -/

namespace SignalDemo

/-- C2. For every environment and every sequence of deliveries and parent
steps: the parent stands at the code after the loop, or has returned from
`main`, only in a state where both latches are set. And when the parent has
reached the loop and `SIGTERM` is never delivered (`SIGINT` may be, any number
of times), then after every prefix of the sequence the parent is still inside
the loop, `sigterm_received` is `0` and the loop condition is true. -/
theorem wait_loop_exits_only_with_both_latches (env : Env) (schedule : List Action) :
    (((main env schedule).pc = .after_loop ∨ (main env schedule).ending = some (.ret 0)) →
      (main env schedule).g.sigterm_received ≠ 0 ∧
      (main env schedule).g.sigint_received ≠ 0) ∧
    (env.setupSucceeds → Action.deliver_SIGTERM ∉ schedule →
      ∀ n, (main env (schedule.take n)).pc.inLoop = true ∧
        (main env (schedule.take n)).g.sigterm_received = 0 ∧
        whileCondition (main env (schedule.take n)).g = true) := by
  refine ⟨(exec_LoopInvariant env schedule _ (setup_LoopInvariant env)).2, ?_⟩
  intro hs hno n
  have hinit : WaitingInvariant (setup env) := by
    refine ⟨?_, ?_, ?_⟩
    · rw [setup_g]
    · rw [setup_of_setupSucceeds env hs]; rfl
    · rw [setup_of_setupSucceeds env hs]; decide
  have htake : Action.deliver_SIGTERM ∉ schedule.take n :=
    fun e => hno (List.mem_of_mem_take e)
  obtain ⟨h1, h2, _⟩ := exec_WaitingInvariant env (schedule.take n) (setup env) htake hinit
  exact ⟨h2, h1, by simp [whileCondition, main, h1]⟩

/-- Witness for C2: after both deliveries and two steps the parent is after
the loop; with `SIGINT` alone it is still inside after a full pass. -/
theorem wait_loop_exits_only_with_both_latches_witness :
    ((main sampleEnv [.deliver_SIGINT, .deliver_SIGTERM, .step, .step]).pc = .after_loop ∧
      (main sampleEnv [.deliver_SIGINT, .deliver_SIGTERM, .step, .step]).g.sigterm_received ≠ 0 ∧
      (main sampleEnv [.deliver_SIGINT, .deliver_SIGTERM, .step, .step]).g.sigint_received ≠ 0) ∧
    (sampleEnv.setupSucceeds ∧
      Action.deliver_SIGTERM ∉ [Action.deliver_SIGINT, .step, .step, .step, .step, .step] ∧
      (main sampleEnv
        ([Action.deliver_SIGINT, .step, .step, .step, .step, .step].take 5)).pc.inLoop = true) :=
  ⟨⟨by decide,
    (wait_loop_exits_only_with_both_latches sampleEnv
      [.deliver_SIGINT, .deliver_SIGTERM, .step, .step]).1 (Or.inl (by decide))⟩,
   by decide, by decide,
   ((wait_loop_exits_only_with_both_latches sampleEnv
      [.deliver_SIGINT, .step, .step, .step, .step, .step]).2 (by decide) (by decide) 5).1⟩

/-- C7. The latches start unset, and for every sequence of handler runs and
parent steps, a latch that is set after a first part of the sequence is set
after every continuation of it. -/
theorem latches_are_monotone (env : Env) (before later : List Action) :
    (main env []).g = { sigterm_received := 0, sigint_received := 0 } ∧
    ((main env before).g.sigterm_received ≠ 0 →
      (main env (before ++ later)).g.sigterm_received ≠ 0) ∧
    ((main env before).g.sigint_received ≠ 0 →
      (main env (before ++ later)).g.sigint_received ≠ 0) := by
  refine ⟨setup_g env, ?_, ?_⟩
  · intro h
    simp only [main, exec_append]
    exact exec_keeps_sigterm env later _ h
  · intro h
    simp only [main, exec_append]
    exact exec_keeps_sigint env later _ h

/-- Witness for C7: `SIGTERM` is delivered, then the parent goes on and `SIGINT`
is delivered. -/
theorem latches_are_monotone_witness :
    (main sampleEnv [.step, .deliver_SIGTERM]).g.sigterm_received ≠ 0 ∧
    (main sampleEnv
      ([.step, .deliver_SIGTERM] ++ [.step, .step, .deliver_SIGINT, .step])).g.sigterm_received
        ≠ 0 :=
  ⟨by decide,
   (latches_are_monotone sampleEnv [.step, .deliver_SIGTERM]
      [.step, .step, .deliver_SIGINT, .step]).2.1 (by decide)⟩

/-- C8. For every latch state and signal number, `sigterm_handler` stores `1`
in `sigterm_received` and leaves `sigint_received` as it was, and
`sigint_handler` stores `1` in `sigint_received` and leaves `sigterm_received`
as it was. -/
theorem handler_sets_exactly_its_latch (signum : Int) (g : Globals) :
    (sigterm_handler signum g).2
      = { sigterm_received := 1, sigint_received := g.sigint_received } ∧
    (sigint_handler signum g).2
      = { sigterm_received := g.sigterm_received, sigint_received := 1 } := by
  constructor <;> rfl

/-- C9. When the registration for `SIGTERM` or the one for `SIGINT` returns
`-1`, the run ends with `exit(1)` whatever is scheduled afterwards, no `fork()`
call is made, and the trace is: the two opening lines, the registration
call(s) up to the failing one, each made once, and the error report. -/
theorem registration_failure_is_fatal (env : Env) (schedule : List Action)
    (h : env.sigaction 0 = -1 ∨ env.sigaction 1 = -1) :
    (main env schedule).ending = some (.exit 1) ∧
    forkResults (main env schedule).trace = [] ∧
    (main env schedule).trace
      = (if env.sigaction 0 = -1 then
          [.printf 33 [], .printf 34 [env.getpid], .sigaction SIGTERM (-1), .perror 45]
        else
          [.printf 33 [], .printf 34 [env.getpid], .sigaction SIGTERM (env.sigaction 0),
           .sigaction SIGINT (-1), .perror 55]) := by
  by_cases h0 : env.sigaction 0 = -1
  · have hs : setup env
        = ended { sigterm_received := 0, sigint_received := 0 } none none
            [.printf 33 [], .printf 34 [env.getpid], .sigaction SIGTERM (-1), .perror 45]
            (.exit 1) := by
      simp [setup, h0]
    rw [main, exec_of_terminated env schedule _ (by rw [hs]; rfl), hs]
    simp [ended, forkResults, h0]
  · have h1 : env.sigaction 1 = -1 := h.resolve_left h0
    have hs : setup env
        = ended { sigterm_received := 0, sigint_received := 0 } none none
            [.printf 33 [], .printf 34 [env.getpid], .sigaction SIGTERM (env.sigaction 0),
             .sigaction SIGINT (-1), .perror 55]
            (.exit 1) := by
      simp [setup, h0, h1]
    rw [main, exec_of_terminated env schedule _ (by rw [hs]; rfl), hs]
    simp [ended, forkResults, h0]

/-- Witness for C9: the registration for `SIGINT` fails; signals scheduled
afterwards change nothing. -/
theorem registration_failure_is_fatal_witness :
    (sigintRegistrationFailsEnv.sigaction 0 = -1 ∨ sigintRegistrationFailsEnv.sigaction 1 = -1) ∧
    (main sigintRegistrationFailsEnv [.deliver_SIGTERM, .step]).ending = some (.exit 1) ∧
    forkResults (main sigintRegistrationFailsEnv [.deliver_SIGTERM, .step]).trace = [] :=
  ⟨by decide,
   (registration_failure_is_fatal sigintRegistrationFailsEnv [.deliver_SIGTERM, .step]
      (by decide)).1,
   (registration_failure_is_fatal sigintRegistrationFailsEnv [.deliver_SIGTERM, .step]
      (by decide)).2.1⟩

end SignalDemo

/-! ## Failure of a creation call, in both demos -/

